import Mathlib

/-!
Shallow embedding of the financial aggregation engine of the AccrualTest
repository (src/server/routes.ts: dashboard stats, P&L report, cash-flow
forecast; src/server/storage.ts: period-filtered reads). Money amounts are
exact rationals, matching the data model's fixed-point decimal requirement.
-/

/-- A calendar date (ISO `YYYY-MM-DD`); comparison of zero-padded ISO strings
is lexicographic comparison of (year, month, day). -/
structure CalDate where
  year : Int
  month : Nat
  day : Nat
deriving DecidableEq, Repr

/-- A calendar month key (`YYYY-MM`). -/
structure MonthKey where
  year : Int
  month : Nat
deriving DecidableEq, Repr

/-- Lexicographic order on ISO dates, as JS compares `Date` values and
zero-padded ISO date strings. -/
def dateLeB (a b : CalDate) : Bool :=
  decide (a.year < b.year ∨ (a.year = b.year ∧
    (a.month < b.month ∨ (a.month = b.month ∧ a.day ≤ b.day))))

/-- Lexicographic order on `YYYY-MM` month keys (string comparison in the
source, since they are zero-padded). -/
def monthLeB (a b : MonthKey) : Bool :=
  decide (a.year < b.year ∨ (a.year = b.year ∧ a.month ≤ b.month))

/-- `monthKey(date)`: the `YYYY-MM` part of a date. -/
def monthKey (d : CalDate) : MonthKey := ⟨d.year, d.month⟩

/-- First day of a calendar month, as built by `new Date(y, m, 1)`. -/
def firstDay (m : MonthKey) : CalDate := ⟨m.year, m.month, 1⟩

/-- `new Date(now.getFullYear(), now.getMonth() + i, 1)`: JS normalizes
month overflow into later years. -/
def addMonths (m : MonthKey) (i : Nat) : MonthKey :=
  let t : Int := m.year * 12 + ((m.month : Int) - 1) + i
  ⟨t.fdiv 12, (t.emod 12).toNat + 1⟩

/-- Inclusive count of calendar months spanned:
`(to.getFullYear() - from.getFullYear()) * 12 + (to.getMonth() - from.getMonth()) + 1`
(`monthsInPeriod` in the P&L handler, recomputed inline for insurance
pro-rating in the cash-flow handler). -/
def monthsSpanned (f t : CalDate) : Int :=
  (t.year - f.year) * 12 + ((t.month : Int) - (f.month : Int)) + 1

/-! ## Domain records (src/shared/schema.ts) -/

structure Customer where
  id : Nat
  name : String
  status : String
deriving DecidableEq, Repr

structure Route where
  id : Nat
  customerId : Option Nat
  monthlyRate : ℚ
  routeType : String
  subcontractorCost : Option ℚ
  status : String
deriving DecidableEq, Repr

structure IncomeRecord where
  id : Nat
  customerId : Option Nat
  routeId : Option Nat
  amount : ℚ
  billingPeriod : MonthKey
  incomeType : String
  paymentStatus : String
deriving DecidableEq, Repr

structure ExpenseCategory where
  id : Nat
  name : String
  parentId : Option Nat
deriving DecidableEq, Repr

structure Expense where
  id : Nat
  categoryId : Option Nat
  vehicleId : Option Nat
  amount : ℚ
  expenseDate : CalDate
  isRecurring : Bool
  recurringFrequency : Option String
deriving DecidableEq, Repr

structure Vehicle where
  id : Nat
  registrationNumber : String
  status : String
deriving DecidableEq, Repr

structure VehicleInstallment where
  id : Nat
  vehicleId : Nat
  monthlyAmount : ℚ
  startDate : CalDate
  endDate : CalDate
deriving DecidableEq, Repr

structure VehicleInsurance where
  id : Nat
  vehicleId : Nat
  premium : ℚ
  startDate : CalDate
  endDate : CalDate
deriving DecidableEq, Repr

structure VehicleParking where
  id : Nat
  vehicleId : Nat
  monthlyCost : ℚ
  startDate : CalDate
  endDate : Option CalDate
deriving DecidableEq, Repr

structure Employee where
  id : Nat
  workerType : String
  salary : ℚ
  foreignWorkerLevy : Option ℚ
  status : String
deriving DecidableEq, Repr

/-- The repository state read by the report handlers. -/
structure Storage where
  customers : List Customer
  routes : List Route
  vehicles : List Vehicle
  employees : List Employee
  incomeRecords : List IncomeRecord
  expenses : List Expense
  expenseCategories : List ExpenseCategory
  vehicleInstallments : List VehicleInstallment
  vehicleInsurance : List VehicleInsurance
  vehicleParking : List VehicleParking
deriving DecidableEq, Repr

/-! ## Payroll cost (inlined three times in routes.ts: lines 721-728,
831-838, 926-933) -/

/-- Employer CPF contribution: `salary * 0.17` for local workers. -/
def cpf (salary : ℚ) : ℚ := salary * 0.17

/-- Per-employee monthly employer cost:
`salary + (workerType === "local" ? cpf : levy)`, levy defaulting to 0. -/
def monthlyEmployerCost (e : Employee) : ℚ :=
  let salary := e.salary
  let levy := e.foreignWorkerLevy.getD 0
  let c := if e.workerType = "local" then cpf salary else 0
  salary + (if e.workerType = "local" then c else levy)

/-- Total monthly cost of the active roster (the `reduce` over
`employees.filter(e => e.status === "active")`). -/
def activeEmployeeCost (employees : List Employee) : ℚ :=
  ((employees.filter (fun e => e.status == "active")).map monthlyEmployerCost).sum

/-- Monthly subcontractor cost over active subcontracted routes with a
non-null cost (cash-flow handler, lines 935-937). -/
def subcontractorMonthly (routes : List Route) : ℚ :=
  ((routes.filter (fun r =>
      r.routeType == "subcontracted" && r.status == "active" && r.subcontractorCost.isSome)).map
    (fun r => r.subcontractorCost.getD 0)).sum

/-! ## Repository period filters (src/server/storage.ts lines 341-355) -/

/-- `getIncomeByPeriod(from, to)`: billingPeriod between the month keys of
`from` and `to` (string comparison on `YYYY-MM`). -/
def getIncomeByPeriod (s : Storage) (f t : CalDate) : List IncomeRecord :=
  s.incomeRecords.filter (fun i =>
    monthLeB (monthKey f) i.billingPeriod && monthLeB i.billingPeriod (monthKey t))

/-- `getExpensesByPeriod(from, to)`: expenseDate between `from` and `to`
(ISO string comparison). -/
def getExpensesByPeriod (s : Storage) (f t : CalDate) : List Expense :=
  s.expenses.filter (fun e => dateLeB f e.expenseDate && dateLeB e.expenseDate t)

/-! ## P&L report (routes.ts lines 775-867) -/

structure NamedAmount where
  name : String
  amount : ℚ
deriving DecidableEq, Repr

structure PnlIncome where
  routeIncome : ℚ
  adhocIncome : ℚ
  totalIncome : ℚ
  byCustomer : List NamedAmount
deriving DecidableEq, Repr

structure PnlExpenses where
  byCategory : List NamedAmount
  subcontractorCosts : ℚ
  employeeCosts : ℚ
  vehicleCosts : ℚ
  totalExpenses : ℚ
deriving DecidableEq, Repr

structure PnlReport where
  periodFrom : CalDate
  periodTo : CalDate
  income : PnlIncome
  expenses : PnlExpenses
  netProfit : ℚ
deriving DecidableEq, Repr

/-- The `/api/reports/pnl` handler body. -/
def pnlReport (s : Storage) (f t : CalDate) : PnlReport :=
  let income := getIncomeByPeriod s f t
  let expenses := getExpensesByPeriod s f t
  let monthsInPeriod : Int := monthsSpanned f t
  let routeIncome := ((income.filter (fun i => i.incomeType == "route")).map (·.amount)).sum
  let adhocIncome := ((income.filter (fun i => i.incomeType == "adhoc")).map (·.amount)).sum
  let incomeByCustomer :=
    (s.customers.map (fun c =>
      ({ name := c.name,
         amount := ((income.filter (fun i => i.customerId == some c.id)).map (·.amount)).sum } :
        NamedAmount))).filter (fun c => decide ((0 : ℚ) < c.amount))
  let expensesByCategoryBase :=
    (s.expenseCategories.map (fun cat =>
      ({ name := cat.name,
         amount := ((expenses.filter (fun e => e.categoryId == some cat.id)).map (·.amount)).sum } :
        NamedAmount))).filter (fun c => decide ((0 : ℚ) < c.amount))
  let uncategorizedExpenses :=
    ((expenses.filter (fun e => e.categoryId == none)).map (·.amount)).sum
  let expensesByCategory :=
    if (0 : ℚ) < uncategorizedExpenses then
      expensesByCategoryBase ++ [{ name := "Uncategorized", amount := uncategorizedExpenses }]
    else expensesByCategoryBase
  let subcontractorCosts :=
    ((s.routes.filter (fun r =>
        r.routeType == "subcontracted" && r.status == "active" && r.subcontractorCost.isSome)).map
      (fun r => r.subcontractorCost.getD 0 * (monthsInPeriod : ℚ))).sum
  let employeeCosts :=
    ((s.employees.filter (fun e => e.status == "active")).map
      (fun e => monthlyEmployerCost e * (monthsInPeriod : ℚ))).sum
  let vehicleCosts : ℚ := 0
  let totalExpenses := (expenses.map (·.amount)).sum + subcontractorCosts + employeeCosts + vehicleCosts
  { periodFrom := f
    periodTo := t
    income :=
      { routeIncome := routeIncome
        adhocIncome := adhocIncome
        totalIncome := routeIncome + adhocIncome
        byCustomer := incomeByCustomer }
    expenses :=
      { byCategory := expensesByCategory
        subcontractorCosts := subcontractorCosts
        employeeCosts := employeeCosts
        vehicleCosts := vehicleCosts
        totalExpenses := totalExpenses }
    netProfit := routeIncome + adhocIncome - totalExpenses }

/-! ## Dashboard stats (routes.ts lines 687-772) -/

structure TrendEntry where
  month : MonthKey
  income : ℚ
  expenses : ℚ
deriving DecidableEq, Repr

structure DashboardStats where
  totalIncomeMonth : ℚ
  totalIncomeYTD : ℚ
  totalExpensesMonth : ℚ
  totalExpensesYTD : ℚ
  netProfitMonth : ℚ
  netProfitYTD : ℚ
  activeRoutes : Nat
  recentIncome : List IncomeRecord
  recentExpenses : List Expense
  monthlyTrend : List TrendEntry
deriving DecidableEq, Repr

/-- `new Date(now.getFullYear(), now.getMonth() - i, 1)` for the trailing
trend; JS normalizes negative month indices into earlier years. -/
def subMonths (m : MonthKey) (i : Nat) : MonthKey :=
  let t : Int := m.year * 12 + ((m.month : Int) - 1) - i
  ⟨t.fdiv 12, (t.emod 12).toNat + 1⟩

/-- The `/api/dashboard/stats` handler body. `expenseDate.startsWith(currentMonth)`
on a zero-padded ISO date is equality of the date's month key. -/
def dashboardStats (s : Storage) (now : CalDate) : DashboardStats :=
  let currentMonth := monthKey now
  let yearStart : MonthKey := ⟨now.year, 1⟩
  let monthlyIncome :=
    ((s.incomeRecords.filter (fun i => i.billingPeriod == currentMonth)).map (·.amount)).sum
  let monthlyExpenses :=
    ((s.expenses.filter (fun e => monthKey e.expenseDate == currentMonth)).map (·.amount)).sum
  let ytdIncome :=
    ((s.incomeRecords.filter (fun i =>
        monthLeB yearStart i.billingPeriod && monthLeB i.billingPeriod currentMonth)).map
      (·.amount)).sum
  let ytdExpenses :=
    ((s.expenses.filter (fun e => dateLeB ⟨now.year, 1, 1⟩ e.expenseDate)).map (·.amount)).sum
  let activeRoutes := (s.routes.filter (fun r => r.status == "active")).length
  let monthlyEmployeeCosts := activeEmployeeCost s.employees
  let monthlyTrend := (List.range 6).map (fun j =>
    let m := subMonths currentMonth (5 - j)
    { month := m
      income := ((s.incomeRecords.filter (fun i => i.billingPeriod == m)).map (·.amount)).sum
      expenses :=
        ((s.expenses.filter (fun e => monthKey e.expenseDate == m)).map (·.amount)).sum +
          monthlyEmployeeCosts : TrendEntry })
  { totalIncomeMonth := monthlyIncome
    totalIncomeYTD := ytdIncome
    totalExpensesMonth := monthlyExpenses + monthlyEmployeeCosts
    totalExpensesYTD := ytdExpenses
    netProfitMonth := monthlyIncome - monthlyExpenses - monthlyEmployeeCosts
    netProfitYTD := ytdIncome - ytdExpenses
    activeRoutes := activeRoutes
    recentIncome := s.incomeRecords.take 5
    recentExpenses := s.expenses.take 5
    monthlyTrend := monthlyTrend }

/-! ## Cash-flow forecast (routes.ts lines 869-984) -/

structure CashflowDetails where
  routeIncome : ℚ
  expectedPayments : ℚ
  vehicleInstallments : ℚ
  vehicleInsurance : ℚ
  vehicleParking : ℚ
  employeeCosts : ℚ
  subcontractorCosts : ℚ
  recurringExpenses : ℚ
deriving DecidableEq, Repr

structure CashflowMonth where
  month : MonthKey
  inflows : ℚ
  outflows : ℚ
  netFlow : ℚ
  cumulativeBalance : ℚ
  details : CashflowDetails
deriving DecidableEq, Repr

structure CashflowSummary where
  totalInflows : ℚ
  totalOutflows : ℚ
  netCashFlow : ℚ
  endingBalance : ℚ
deriving DecidableEq, Repr

structure CashflowResult where
  months : List CashflowMonth
  summary : CashflowSummary
deriving DecidableEq, Repr

/-- Pro-rated monthly insurance outflow for the forecast month whose first
day is `date`: records active at `date` contribute
`premium / monthsSpanned(startDate, endDate)` (routes.ts lines 904-916). -/
def insuranceMonthly (l : List VehicleInsurance) (date : CalDate) : ℚ :=
  ((l.filter (fun ins => dateLeB ins.startDate date && dateLeB date ins.endDate)).map
    (fun ins => ins.premium / ((monthsSpanned ins.startDate ins.endDate : Int) : ℚ))).sum

/-- One forecast month's component breakdown (the per-iteration body of the
cash-flow loop, routes.ts lines 890-945). -/
def forecastDetails (s : Storage) (m : MonthKey) : CashflowDetails :=
  let date := firstDay m
  let routeIncome := ((s.routes.filter (fun r => r.status == "active")).map (·.monthlyRate)).sum
  let vehicleInstallments :=
    ((s.vehicleInstallments.filter (fun inst =>
        dateLeB inst.startDate date && dateLeB date inst.endDate)).map (·.monthlyAmount)).sum
  let vehicleInsurance := insuranceMonthly s.vehicleInsurance date
  let vehicleParking :=
    ((s.vehicleParking.filter (fun p =>
        dateLeB p.startDate date && dateLeB date (p.endDate.getD ⟨9999, 12, 31⟩))).map
      (·.monthlyCost)).sum
  let employeeCosts := activeEmployeeCost s.employees
  let subcontractorCosts := subcontractorMonthly s.routes
  let recurringExpenses :=
    ((s.expenses.filter (fun e => e.isRecurring && e.recurringFrequency == some "monthly")).map
      (·.amount)).sum
  { routeIncome := routeIncome
    expectedPayments := 0
    vehicleInstallments := vehicleInstallments
    vehicleInsurance := vehicleInsurance
    vehicleParking := vehicleParking
    employeeCosts := employeeCosts
    subcontractorCosts := subcontractorCosts
    recurringExpenses := recurringExpenses }

/-- The forecast loop: threads the mutable `cumulativeBalance` accumulator
through the month list, returning the emitted records and the accumulator's
final value. -/
def cashflowGo (s : Storage) (bal : ℚ) : List MonthKey → List CashflowMonth × ℚ
  | [] => ([], bal)
  | m :: rest =>
    let d := forecastDetails s m
    let totalInflows := d.routeIncome
    let totalOutflows := d.vehicleInstallments + d.vehicleInsurance + d.vehicleParking +
      d.employeeCosts + d.subcontractorCosts + d.recurringExpenses
    let netFlow := totalInflows - totalOutflows
    let next := cashflowGo s (bal + netFlow) rest
    ({ month := m
       inflows := totalInflows
       outflows := totalOutflows
       netFlow := netFlow
       cumulativeBalance := bal + netFlow
       details := d } :: next.1, next.2)

/-- The `/api/reports/cashflow` handler body: `now` is the current month,
`periodMonths` the parsed `period` parameter (the `for` loop runs zero times
when it is non-positive). -/
def cashflowForecast (s : Storage) (now : MonthKey) (periodMonths : Int) : CashflowResult :=
  let ms := (List.range periodMonths.toNat).map (fun i => addMonths now i)
  let r := cashflowGo s 0 ms
  let totalInflows := (r.1.map (·.inflows)).sum
  let totalOutflows := (r.1.map (·.outflows)).sum
  { months := r.1
    summary :=
      { totalInflows := totalInflows
        totalOutflows := totalOutflows
        netCashFlow := totalInflows - totalOutflows
        endingBalance := r.2 } }

/-- `parseInt(req.query.period as string) || 6`: an absent or non-numeric
parameter (NaN) and a parsed 0 are falsy and fall back to the default 6. -/
def parsePeriodParam (p : Option Int) : Int :=
  match p with
  | none => 6
  | some n => if n = 0 then 6 else n

/-! ## Concrete ledgers used in tests of the claims -/

/-- One active owned route at 10000/month and one active local employee at
salary 3000 (the spec's cash-flow scenario). -/
def demoCashflowState : Storage :=
  { customers := []
    routes := [⟨1, none, 10000, "owned", none, "active"⟩]
    vehicles := []
    employees := [⟨1, "local", 3000, none, "active"⟩]
    incomeRecords := []
    expenses := []
    expenseCategories := []
    vehicleInstallments := []
    vehicleInsurance := []
    vehicleParking := [] }

def demoLocalEmployee : Employee := ⟨1, "local", 3000, none, "active"⟩

def demoForeignEmployee : Employee := ⟨2, "foreign", 2200, some 450, "active"⟩

/-- Annual premium 2400 covering 2024-01-01 through 2024-12-31. -/
def demoInsurance : VehicleInsurance := ⟨1, 1, 2400, ⟨2024, 1, 1⟩, ⟨2024, 12, 31⟩⟩

/-- A ledger touching every entity list, with no vehicles. -/
def demoLedgerBase : Storage :=
  { customers := [⟨1, "Acme", "active"⟩]
    routes := [⟨1, some 1, 10000, "subcontracted", some 4000, "active"⟩]
    vehicles := []
    employees := [⟨1, "local", 3000, none, "active"⟩]
    incomeRecords := [⟨1, some 1, some 1, 10000, ⟨2024, 2⟩, "route", "paid"⟩]
    expenses := [⟨1, none, none, 50, ⟨2024, 2, 10⟩, false, none⟩]
    expenseCategories := [⟨1, "Fuel", none⟩]
    vehicleInstallments := [⟨1, 1, 500, ⟨2024, 1, 1⟩, ⟨2024, 6, 30⟩⟩]
    vehicleInsurance := [demoInsurance]
    vehicleParking := [⟨1, 1, 100, ⟨2024, 1, 1⟩, none⟩] }

/-- The same ledger with a vehicle row in maintenance status added. -/
def demoLedgerWithVehicle : Storage :=
  { demoLedgerBase with vehicles := [⟨7, "SBS1234A", "maintenance"⟩] }

/-- A ledger whose only income entry has no customerId, alongside one
customer. -/
def demoUnmatchedState : Storage :=
  { customers := [⟨1, "Acme", "active"⟩]
    routes := []
    vehicles := []
    employees := []
    incomeRecords := [⟨1, none, none, 100, ⟨2024, 5⟩, "route", "paid"⟩]
    expenses := []
    expenseCategories := []
    vehicleInstallments := []
    vehicleInsurance := []
    vehicleParking := [] }

/-! ## Helper lemmas -/

theorem pnl_employeeCosts_eq (s : Storage) (f t : CalDate) :
    (pnlReport s f t).expenses.employeeCosts =
      activeEmployeeCost s.employees * ((monthsSpanned f t : Int) : ℚ) := by
  simp [pnlReport, activeEmployeeCost, List.sum_map_mul_right]

theorem pnl_subCosts_eq (s : Storage) (f t : CalDate) :
    (pnlReport s f t).expenses.subcontractorCosts =
      subcontractorMonthly s.routes * ((monthsSpanned f t : Int) : ℚ) := by
  simp [pnlReport, subcontractorMonthly, List.sum_map_mul_right]

/-- Claim C1: for every P&L request, `netProfit = totalIncome - totalExpenses`,
and `totalExpenses` is the raw sum of all matched expense amounts plus
subcontractor, employee, and vehicle costs, with `vehicleCosts = 0` (the
byCategory view is not added again). -/
theorem pnl_totals_invariant (s : Storage) (f t : CalDate) :
    (pnlReport s f t).netProfit =
      (pnlReport s f t).income.totalIncome - (pnlReport s f t).expenses.totalExpenses ∧
    (pnlReport s f t).expenses.totalExpenses =
      ((getExpensesByPeriod s f t).map (·.amount)).sum +
        (pnlReport s f t).expenses.subcontractorCosts +
        (pnlReport s f t).expenses.employeeCosts +
        (pnlReport s f t).expenses.vehicleCosts ∧
    (pnlReport s f t).expenses.vehicleCosts = 0 :=
  ⟨rfl, rfl, rfl⟩

/-- Claim C4: monthly employer cost is `salary + cpf(salary)` for local
workers and `salary + levy` (levy defaulting to 0) for foreign workers;
`cpf 3000 = 510`, a local at 3000 costs 3510, a foreign at 2200 with levy
450 costs 2650. -/
theorem employer_cost_spec (e : Employee) :
    (e.workerType = "local" → monthlyEmployerCost e = e.salary + e.salary * 0.17) ∧
    (e.workerType = "foreign" → monthlyEmployerCost e = e.salary + e.foreignWorkerLevy.getD 0) ∧
    cpf 3000 = 510 ∧
    monthlyEmployerCost demoLocalEmployee = 3510 ∧
    monthlyEmployerCost demoForeignEmployee = 2650 := by
  refine ⟨?_, ?_, by norm_num [cpf],
    by simp [monthlyEmployerCost, demoLocalEmployee, cpf]; norm_num,
    by simp [monthlyEmployerCost, demoForeignEmployee]; norm_num⟩
  · intro h
    simp [monthlyEmployerCost, cpf, h]
  · intro h
    simp [monthlyEmployerCost, h]

/-- Witness for C4 at the two concrete employees. -/
theorem employer_cost_spec_witness :
    monthlyEmployerCost demoLocalEmployee =
      demoLocalEmployee.salary + demoLocalEmployee.salary * 0.17 ∧
    monthlyEmployerCost demoForeignEmployee =
      demoForeignEmployee.salary + demoForeignEmployee.foreignWorkerLevy.getD 0 :=
  ⟨(employer_cost_spec demoLocalEmployee).1 rfl,
   (employer_cost_spec demoForeignEmployee).2.1 rfl⟩

/-- Claim C5: `monthsSpanned` is the inclusive whole-calendar-month count
`(to.year - from.year)*12 + (to.month - from.month) + 1`, with
`monthsSpanned d d = 1`, the two concrete examples, and it is the
pro-rating multiplier of the P&L subcontractor and employee costs. -/
theorem monthsSpanned_spec :
    (∀ d : CalDate, monthsSpanned d d = 1) ∧
    monthsSpanned ⟨2024, 1, 1⟩ ⟨2024, 12, 31⟩ = 12 ∧
    monthsSpanned ⟨2024, 1, 15⟩ ⟨2024, 3, 1⟩ = 3 ∧
    (∀ f t : CalDate, monthsSpanned f t =
      (t.year - f.year) * 12 + ((t.month : Int) - (f.month : Int)) + 1) ∧
    (∀ (s : Storage) (f t : CalDate),
      (pnlReport s f t).expenses.employeeCosts =
        activeEmployeeCost s.employees * ((monthsSpanned f t : Int) : ℚ) ∧
      (pnlReport s f t).expenses.subcontractorCosts =
        subcontractorMonthly s.routes * ((monthsSpanned f t : Int) : ℚ)) := by
  refine ⟨fun d => ?_, by decide, by decide, fun f t => rfl,
    fun s f t => ⟨pnl_employeeCosts_eq s f t, pnl_subCosts_eq s f t⟩⟩
  simp [monthsSpanned]

/-- Claim C7: dashboard `totalExpensesMonth` adds the active payroll cost to
the current month's expense sum, while `totalExpensesYTD` is only the sum of
expenses dated on or after January 1 (no payroll added); net profits follow
the same asymmetry. -/
theorem dashboard_expense_asymmetry (s : Storage) (now : CalDate) :
    (dashboardStats s now).totalExpensesMonth =
      ((s.expenses.filter (fun e => monthKey e.expenseDate == monthKey now)).map (·.amount)).sum +
        activeEmployeeCost s.employees ∧
    (dashboardStats s now).totalExpensesYTD =
      ((s.expenses.filter (fun e => dateLeB ⟨now.year, 1, 1⟩ e.expenseDate)).map (·.amount)).sum ∧
    (dashboardStats s now).netProfitMonth =
      (dashboardStats s now).totalIncomeMonth -
        ((s.expenses.filter (fun e => monthKey e.expenseDate == monthKey now)).map (·.amount)).sum -
        activeEmployeeCost s.employees ∧
    (dashboardStats s now).netProfitYTD =
      (dashboardStats s now).totalIncomeYTD - (dashboardStats s now).totalExpensesYTD :=
  ⟨rfl, rfl, rfl, rfl⟩

theorem cashflowGo_netFlow (s : Storage) :
    ∀ (ms : List MonthKey) (bal : ℚ), ∀ e ∈ (cashflowGo s bal ms).1,
      e.netFlow = e.inflows - e.outflows := by
  intro ms
  induction ms with
  | nil => intro bal e he; simp [cashflowGo] at he
  | cons m rest ih =>
    intro bal e he
    simp only [cashflowGo, List.mem_cons] at he
    rcases he with rfl | he
    · rfl
    · exact ih _ e he

theorem cashflowGo_snd (s : Storage) :
    ∀ (ms : List MonthKey) (bal : ℚ),
      (cashflowGo s bal ms).2 = bal + ((cashflowGo s bal ms).1.map (·.netFlow)).sum := by
  intro ms
  induction ms with
  | nil => intro bal; simp [cashflowGo]
  | cons m rest ih =>
    intro bal
    simp only [cashflowGo, List.map_cons, List.sum_cons]
    rw [ih]
    ring

theorem cashflowGo_cumulative (s : Storage) :
    ∀ (ms : List MonthKey) (bal : ℚ) (i : Nat) (h : i < (cashflowGo s bal ms).1.length),
      ((cashflowGo s bal ms).1.get ⟨i, h⟩).cumulativeBalance =
        bal + (((cashflowGo s bal ms).1.map (·.netFlow)).take (i + 1)).sum := by
  intro ms
  induction ms with
  | nil => intro bal i h; simp [cashflowGo] at h
  | cons m rest ih =>
    intro bal i h
    match i with
    | 0 => simp [cashflowGo]
    | Nat.succ j =>
      simp only [cashflowGo, List.get_cons_succ, List.map_cons, List.take_succ_cons,
        List.sum_cons]
      rw [ih]
      ring

theorem cashflowGo_last (s : Storage) :
    ∀ (ms : List MonthKey) (bal : ℚ) (h : (cashflowGo s bal ms).1 ≠ []),
      (cashflowGo s bal ms).2 = ((cashflowGo s bal ms).1.getLast h).cumulativeBalance := by
  intro ms
  induction ms with
  | nil => intro bal h; exact absurd rfl h
  | cons m rest ih =>
    intro bal h
    by_cases hr : (cashflowGo s (bal + ((forecastDetails s m).routeIncome -
        ((forecastDetails s m).vehicleInstallments + (forecastDetails s m).vehicleInsurance +
          (forecastDetails s m).vehicleParking + (forecastDetails s m).employeeCosts +
          (forecastDetails s m).subcontractorCosts + (forecastDetails s m).recurringExpenses))) rest).1 = []
    · simp only [cashflowGo, List.getLast_cons, hr]
      rw [show (cashflowGo s _ rest).2 = _ from cashflowGo_snd s rest _]
      simp [hr]
    · simp only [cashflowGo]
      rw [List.getLast_cons hr]
      exact ih _ hr

/-- Claim C2: in the cash-flow forecast each month has
`netFlow = inflows - outflows`, `cumulativeBalance` is the running sum of
net flows from 0, the summary satisfies
`netCashFlow = totalInflows - totalOutflows` and `endingBalance` is the last
month's cumulative balance; on the scenario of one active route at 10000 and
one active local employee at 3000 over 3 months the values are
10000/3510/6490 with balances 6490, 12980, 19470. -/
theorem cashflow_flow_spec (s : Storage) (now : MonthKey) (n : Int) :
    (∀ e ∈ (cashflowForecast s now n).months, e.netFlow = e.inflows - e.outflows) ∧
    (∀ (i : Nat) (h : i < (cashflowForecast s now n).months.length),
      ((cashflowForecast s now n).months.get ⟨i, h⟩).cumulativeBalance =
        (((cashflowForecast s now n).months.map (·.netFlow)).take (i + 1)).sum) ∧
    (cashflowForecast s now n).summary.netCashFlow =
      (cashflowForecast s now n).summary.totalInflows -
        (cashflowForecast s now n).summary.totalOutflows ∧
    (∀ h : (cashflowForecast s now n).months ≠ [],
      (cashflowForecast s now n).summary.endingBalance =
        ((cashflowForecast s now n).months.getLast h).cumulativeBalance) ∧
    (cashflowForecast demoCashflowState ⟨2025, 10⟩ 3).months.map
        (fun e => (e.inflows, e.outflows, e.netFlow, e.cumulativeBalance)) =
      [(10000, 3510, 6490, 6490), (10000, 3510, 6490, 12980), (10000, 3510, 6490, 19470)] ∧
    (cashflowForecast demoCashflowState ⟨2025, 10⟩ 3).summary.endingBalance = 19470 := by
  refine ⟨fun e he => cashflowGo_netFlow s _ 0 e he,
    fun i h => by simpa using cashflowGo_cumulative s _ 0 i h,
    rfl,
    fun h => cashflowGo_last s _ 0 h,
    ?_, ?_⟩
  · norm_num [cashflowForecast, cashflowGo, forecastDetails, insuranceMonthly, activeEmployeeCost,
      subcontractorMonthly, monthlyEmployerCost, cpf, demoCashflowState, dateLeB, monthsSpanned,
      addMonths, firstDay, List.range_succ]
  · norm_num [cashflowForecast, cashflowGo, forecastDetails, insuranceMonthly, activeEmployeeCost,
      subcontractorMonthly, monthlyEmployerCost, cpf, demoCashflowState, dateLeB, monthsSpanned,
      addMonths, firstDay, List.range_succ]

/-- Witness for C2: the ending balance of the concrete 3-month scenario is
the last month's cumulative balance. -/
theorem cashflow_flow_spec_witness :
    (cashflowForecast demoCashflowState ⟨2025, 10⟩ 3).summary.endingBalance =
      ((cashflowForecast demoCashflowState ⟨2025, 10⟩ 3).months.getLast
        (by simp [cashflowForecast, cashflowGo, List.range_succ])).cumulativeBalance :=
  (cashflow_flow_spec demoCashflowState ⟨2025, 10⟩ 3).2.2.2.1
    (by simp [cashflowForecast, cashflowGo, List.range_succ])

/-- Claim C3: each insurance record contributes
`premium / monthsSpanned(startDate, endDate)` to a forecast month whose
first day lies inside `[startDate, endDate]` and 0 outside; premium 2400
over 2024-01-01..2024-12-31 contributes exactly 200 to each of the 12
months in range and 0 outside. -/
theorem insurance_prorating_spec :
    (∀ (ins : VehicleInsurance) (rest : List VehicleInsurance) (d : CalDate),
      insuranceMonthly (ins :: rest) d =
        (if dateLeB ins.startDate d && dateLeB d ins.endDate then
            ins.premium / ((monthsSpanned ins.startDate ins.endDate : Int) : ℚ)
          else 0) +
          insuranceMonthly rest d) ∧
    (∀ (s : Storage) (m : MonthKey),
      (forecastDetails s m).vehicleInsurance = insuranceMonthly s.vehicleInsurance (firstDay m)) ∧
    (List.range 12).map (fun k => insuranceMonthly [demoInsurance] ⟨2024, k + 1, 1⟩) =
      List.replicate 12 200 ∧
    insuranceMonthly [demoInsurance] ⟨2023, 12, 1⟩ = 0 ∧
    insuranceMonthly [demoInsurance] ⟨2025, 1, 1⟩ = 0 := by
  refine ⟨fun ins rest d => ?_, fun s m => rfl, ?_, ?_, ?_⟩
  · cases h : (dateLeB ins.startDate d && dateLeB d ins.endDate) <;>
      simp [insuranceMonthly, List.filter_cons, h]
  · norm_num [insuranceMonthly, demoInsurance, dateLeB, monthsSpanned, List.range_succ,
      List.replicate]
  · norm_num [insuranceMonthly, demoInsurance, dateLeB, monthsSpanned]
  · norm_num [insuranceMonthly, demoInsurance, dateLeB, monthsSpanned]

/-- Counterexample to claim C6: a P&L request whose `to` (2024-01-31)
precedes its `from` (2024-03-01) is not rejected; the handler computes with
`monthsSpanned = -1` and returns employee costs of -3510 for a roster whose
monthly cost is 3510. -/
theorem reversed_range_not_rejected :
    dateLeB ⟨2024, 3, 1⟩ ⟨2024, 1, 31⟩ = false ∧
    monthsSpanned ⟨2024, 3, 1⟩ ⟨2024, 1, 31⟩ = -1 ∧
    (pnlReport demoCashflowState ⟨2024, 3, 1⟩ ⟨2024, 1, 31⟩).expenses.employeeCosts = -3510 := by
  refine ⟨by decide, by decide, ?_⟩
  norm_num [pnlReport, getIncomeByPeriod, getExpensesByPeriod, monthsSpanned, monthlyEmployerCost,
    cpf, demoCashflowState, dateLeB, monthLeB, monthKey]

/-- Claim C6 as amended: no range validation exists. A P&L request with
`to < from` is still computed, its pro-rated costs scaled by the (possibly
non-positive) `monthsSpanned`; a forecast request with negative
`periodMonths` runs the loop zero times and returns an empty, all-zero
result, while a period parameter of 0 (or a non-numeric one) is falsy and
falls back to the default 6. -/
theorem range_validation_absent (s : Storage) :
    (∀ f t : CalDate,
      (pnlReport s f t).expenses.employeeCosts =
        activeEmployeeCost s.employees * ((monthsSpanned f t : Int) : ℚ) ∧
      (pnlReport s f t).expenses.subcontractorCosts =
        subcontractorMonthly s.routes * ((monthsSpanned f t : Int) : ℚ)) ∧
    (∀ (now : MonthKey) (n : Int), n < 0 →
      cashflowForecast s now n =
        { months := []
          summary :=
            { totalInflows := 0, totalOutflows := 0, netCashFlow := 0, endingBalance := 0 } }) ∧
    parsePeriodParam (some 0) = 6 ∧
    parsePeriodParam none = 6 := by
  refine ⟨fun f t => ⟨pnl_employeeCosts_eq s f t, pnl_subCosts_eq s f t⟩, fun now n hn => ?_,
    rfl, rfl⟩
  have h0 : n.toNat = 0 := Int.toNat_of_nonpos (le_of_lt hn)
  simp [cashflowForecast, cashflowGo, h0]

/-- Witness for the amended C6 at `periodMonths = -3`. -/
theorem range_validation_absent_witness :
    cashflowForecast demoCashflowState ⟨2025, 10⟩ (-3) =
      { months := []
        summary :=
          { totalInflows := 0, totalOutflows := 0, netCashFlow := 0, endingBalance := 0 } } :=
  (range_validation_absent demoCashflowState).2.1 ⟨2025, 10⟩ (-3) (by norm_num)

/-- Claim C8: the P&L is a pure function of the entity sets it reads: two
states agreeing on income records, expenses, customers, routes, employees
and categories (vehicles and schedules may differ) give identical results
for the same range. -/
theorem pnl_pure_of_reads (s1 s2 : Storage) (f t : CalDate)
    (hInc : s1.incomeRecords = s2.incomeRecords)
    (hExp : s1.expenses = s2.expenses)
    (hCus : s1.customers = s2.customers)
    (hRou : s1.routes = s2.routes)
    (hEmp : s1.employees = s2.employees)
    (hCat : s1.expenseCategories = s2.expenseCategories) :
    pnlReport s1 f t = pnlReport s2 f t := by
  simp only [pnlReport, getIncomeByPeriod, getExpensesByPeriod, hInc, hExp, hCus, hRou, hEmp, hCat]

/-- Witness for C8: two ledgers differing only by a vehicle row yield the
same P&L. -/
theorem pnl_pure_of_reads_witness :
    pnlReport demoLedgerBase ⟨2024, 1, 1⟩ ⟨2024, 12, 31⟩ =
      pnlReport demoLedgerWithVehicle ⟨2024, 1, 1⟩ ⟨2024, 12, 31⟩ :=
  pnl_pure_of_reads demoLedgerBase demoLedgerWithVehicle ⟨2024, 1, 1⟩ ⟨2024, 12, 31⟩
    rfl rfl rfl rfl rfl rfl

theorem forecastDetails_of_reads (s1 s2 : Storage)
    (hRou : s1.routes = s2.routes)
    (hEmp : s1.employees = s2.employees)
    (hInst : s1.vehicleInstallments = s2.vehicleInstallments)
    (hIns : s1.vehicleInsurance = s2.vehicleInsurance)
    (hPark : s1.vehicleParking = s2.vehicleParking)
    (hExp : s1.expenses = s2.expenses) (m : MonthKey) :
    forecastDetails s1 m = forecastDetails s2 m := by
  simp only [forecastDetails, hRou, hEmp, hInst, hIns, hPark, hExp]

theorem cashflowGo_of_reads (s1 s2 : Storage)
    (hRou : s1.routes = s2.routes)
    (hEmp : s1.employees = s2.employees)
    (hInst : s1.vehicleInstallments = s2.vehicleInstallments)
    (hIns : s1.vehicleInsurance = s2.vehicleInsurance)
    (hPark : s1.vehicleParking = s2.vehicleParking)
    (hExp : s1.expenses = s2.expenses) :
    ∀ (ms : List MonthKey) (bal : ℚ), cashflowGo s1 bal ms = cashflowGo s2 bal ms := by
  intro ms
  induction ms with
  | nil => intro bal; rfl
  | cons m rest ih =>
    intro bal
    have hd := forecastDetails_of_reads s1 s2 hRou hEmp hInst hIns hPark hExp m
    simp only [cashflowGo, hd, ih]

/-- Claim C10: the cash-flow forecast is independent of the Vehicle table:
two states agreeing on routes, employees, installments, insurance, parking
and expenses - with arbitrary vehicle rows of any status - produce identical
forecasts. -/
theorem cashflow_ignores_vehicles (s1 s2 : Storage) (now : MonthKey) (n : Int)
    (hRou : s1.routes = s2.routes)
    (hEmp : s1.employees = s2.employees)
    (hInst : s1.vehicleInstallments = s2.vehicleInstallments)
    (hIns : s1.vehicleInsurance = s2.vehicleInsurance)
    (hPark : s1.vehicleParking = s2.vehicleParking)
    (hExp : s1.expenses = s2.expenses) :
    cashflowForecast s1 now n = cashflowForecast s2 now n := by
  simp only [cashflowForecast, cashflowGo_of_reads s1 s2 hRou hEmp hInst hIns hPark hExp]

/-- Witness for C10: adding a vehicle row in maintenance status leaves the
forecast unchanged even though the ledger has installment, insurance and
parking schedules. -/
theorem cashflow_ignores_vehicles_witness :
    cashflowForecast demoLedgerBase ⟨2024, 3⟩ 6 =
      cashflowForecast demoLedgerWithVehicle ⟨2024, 3⟩ 6 :=
  cashflow_ignores_vehicles demoLedgerBase demoLedgerWithVehicle ⟨2024, 3⟩ 6
    rfl rfl rfl rfl rfl rfl

theorem sum_map_filter_split {α : Type} (p : α → Bool) (f : α → ℚ) :
    ∀ l : List α,
      ((l.filter p).map f).sum + ((l.filter (fun x => !(p x))).map f).sum = (l.map f).sum := by
  intro l
  induction l with
  | nil => simp
  | cons a l ih =>
    cases h : p a <;> simp [List.filter_cons, h] <;> linarith [ih]

theorem filter_pos_sum (l : List NamedAmount) (h : ∀ b ∈ l, 0 ≤ b.amount) :
    ((l.filter (fun c => decide ((0 : ℚ) < c.amount))).map (·.amount)).sum =
      (l.map (·.amount)).sum := by
  induction l with
  | nil => simp
  | cons b l ih =>
    have hb := h b (List.mem_cons_self b l)
    have hrest : ∀ x ∈ l, 0 ≤ x.amount := fun x hx => h x (List.mem_cons_of_mem b hx)
    by_cases hpos : (0 : ℚ) < b.amount
    · simp [List.filter_cons, hpos, ih hrest]
    · have hz : b.amount = 0 := le_antisymm (not_lt.mp hpos) hb
      simp [List.filter_cons, hpos, ih hrest, hz]

theorem sum_filter_or {α : Type} (f : α → ℚ) (a b : α → Bool) :
    ∀ l : List α, (∀ x ∈ l, ¬(a x = true ∧ b x = true)) →
      ((l.filter (fun x => a x || b x)).map f).sum =
        ((l.filter a).map f).sum + ((l.filter b).map f).sum := by
  intro l
  induction l with
  | nil => intro _; simp
  | cons x l ih =>
    intro h
    have hx := h x (List.mem_cons_self x l)
    have hrest : ∀ y ∈ l, ¬(a y = true ∧ b y = true) :=
      fun y hy => h y (List.mem_cons_of_mem x hy)
    cases ha : a x with
    | false =>
      cases hbx : b x with
      | false => simp [List.filter_cons, ha, hbx, ih hrest]
      | true => simp [List.filter_cons, ha, hbx, ih hrest]; ring
    | true =>
      cases hbx : b x with
      | false => simp [List.filter_cons, ha, hbx, ih hrest]; ring
      | true => exact absurd ⟨ha, hbx⟩ hx

theorem buckets_total (entries : List IncomeRecord) :
    ∀ cs : List Customer, (cs.map (·.id)).Nodup →
      (cs.map (fun c =>
          ((entries.filter (fun i => i.customerId == some c.id)).map (·.amount)).sum)).sum =
        ((entries.filter (fun i => cs.any (fun c => i.customerId == some c.id))).map
          (·.amount)).sum := by
  intro cs
  induction cs with
  | nil => intro _; simp
  | cons c cs ih =>
    intro hnd
    rw [List.map_cons] at hnd
    have hnotin : c.id ∉ cs.map (·.id) := (List.nodup_cons.mp hnd).1
    have hdis : ∀ i ∈ entries,
        ¬((i.customerId == some c.id) = true ∧
          (cs.any (fun c2 => i.customerId == some c2.id)) = true) := by
      rintro i _ ⟨h1, h2⟩
      have h1' : i.customerId = some c.id := by simpa using h1
      rcases List.any_eq_true.mp h2 with ⟨c2, hc2, hmem⟩
      have h2' : i.customerId = some c2.id := by simpa using hmem
      have hid : c2.id = c.id := by
        rw [h1'] at h2'
        exact (Option.some_injective _ h2').symm
      exact hnotin (hid ▸ List.mem_map_of_mem (·.id) hc2)
    have hfc : entries.filter (fun i => (c :: cs).any (fun c2 => i.customerId == some c2.id)) =
        entries.filter (fun i =>
          (i.customerId == some c.id) || cs.any (fun c2 => i.customerId == some c2.id)) := by
      apply List.filter_congr
      intro i _
      simp [List.any_cons]
    rw [List.map_cons, List.sum_cons, ih (List.nodup_cons.mp hnd).2, hfc,
      sum_filter_or _ _ _ entries hdis]

/-- Claim C9: an in-range income entry whose customerId is null or matches
no customer is counted in `totalIncome` but in no `byCustomer` bucket and no
synthetic bucket exists for it, so (with distinct customer ids, nonnegative
amounts and route/adhoc income types) the `byCustomer` amounts sum to
strictly less than `totalIncome`, and every bucket is named after an
existing customer. -/
theorem pnl_unmatched_income_lt (s : Storage) (f t : CalDate)
    (hnd : (s.customers.map (·.id)).Nodup)
    (hpos : ∀ i ∈ getIncomeByPeriod s f t, 0 ≤ i.amount)
    (htype : ∀ i ∈ getIncomeByPeriod s f t, i.incomeType = "route" ∨ i.incomeType = "adhoc")
    (e : IncomeRecord) (he : e ∈ getIncomeByPeriod s f t)
    (hmatch : ∀ c ∈ s.customers, ¬ e.customerId = some c.id)
    (hamt : 0 < e.amount) :
    ((pnlReport s f t).income.byCustomer.map (·.amount)).sum <
      (pnlReport s f t).income.totalIncome ∧
    ∀ b ∈ (pnlReport s f t).income.byCustomer, b.name ∈ s.customers.map (·.name) := by
  have hby : (pnlReport s f t).income.byCustomer =
      (s.customers.map (fun c =>
        ({ name := c.name,
           amount := (((getIncomeByPeriod s f t).filter
             (fun i => i.customerId == some c.id)).map (·.amount)).sum } : NamedAmount))).filter
        (fun c => decide ((0 : ℚ) < c.amount)) := rfl
  have htot : (pnlReport s f t).income.totalIncome =
      (((getIncomeByPeriod s f t).filter (fun i => i.incomeType == "route")).map (·.amount)).sum +
        (((getIncomeByPeriod s f t).filter (fun i => i.incomeType == "adhoc")).map
          (·.amount)).sum := rfl
  constructor
  · -- totalIncome is the sum over all in-range entries
    have hsplitT := sum_map_filter_split (fun i : IncomeRecord => i.incomeType == "route")
      (·.amount) (getIncomeByPeriod s f t)
    have hadhoc : (getIncomeByPeriod s f t).filter (fun i => !(i.incomeType == "route")) =
        (getIncomeByPeriod s f t).filter (fun i => i.incomeType == "adhoc") := by
      apply List.filter_congr
      intro x hx
      rcases htype x hx with h | h <;> simp [h]
    -- the bucket sums, filtered by positivity, equal the matched-entry sum
    have hbnn : ∀ b ∈ s.customers.map (fun c =>
        ({ name := c.name,
           amount := (((getIncomeByPeriod s f t).filter
             (fun i => i.customerId == some c.id)).map (·.amount)).sum } : NamedAmount)),
        0 ≤ b.amount := by
      intro b hb
      rcases List.mem_map.mp hb with ⟨c, hc, rfl⟩
      apply List.sum_nonneg
      intro x hx
      rcases List.mem_map.mp hx with ⟨i, hi, rfl⟩
      exact hpos i (List.mem_of_mem_filter hi)
    have h1 := filter_pos_sum _ hbnn
    have h2 := buckets_total (getIncomeByPeriod s f t) s.customers hnd
    -- matched plus unmatched is everything
    have h3 := sum_map_filter_split
      (fun i : IncomeRecord => s.customers.any (fun c => i.customerId == some c.id))
      (·.amount) (getIncomeByPeriod s f t)
    -- the unmatched part is at least e.amount
    have hue : e ∈ (getIncomeByPeriod s f t).filter
        (fun i => !(s.customers.any (fun c => i.customerId == some c.id))) := by
      refine List.mem_filter.mpr ⟨he, ?_⟩
      simp only [Bool.not_eq_true']
      refine List.any_eq_false.mpr ?_
      intro c hc
      simpa using hmatch c hc
    have hunn : ∀ x ∈ (((getIncomeByPeriod s f t).filter
        (fun i => !(s.customers.any (fun c => i.customerId == some c.id)))).map (·.amount)),
        0 ≤ x := by
      intro x hx
      rcases List.mem_map.mp hx with ⟨i, hi, rfl⟩
      exact hpos i (List.mem_of_mem_filter hi)
    have hle : e.amount ≤ (((getIncomeByPeriod s f t).filter
        (fun i => !(s.customers.any (fun c => i.customerId == some c.id)))).map (·.amount)).sum :=
      List.single_le_sum hunn _ (List.mem_map_of_mem (·.amount) hue)
    rw [hby, htot, h1]
    rw [List.map_map]
    have hcomp : ((fun b : NamedAmount => b.amount) ∘ (fun c : Customer =>
        ({ name := c.name,
           amount := (((getIncomeByPeriod s f t).filter
             (fun i => i.customerId == some c.id)).map (·.amount)).sum } : NamedAmount))) =
        (fun c : Customer => (((getIncomeByPeriod s f t).filter
          (fun i => i.customerId == some c.id)).map (·.amount)).sum) := rfl
    rw [hcomp, h2]
    rw [hadhoc] at hsplitT
    linarith
  · intro b hb
    rw [hby] at hb
    rcases List.mem_map.mp (List.mem_of_mem_filter hb) with ⟨c, hc, rfl⟩
    exact List.mem_map_of_mem (·.name) hc

/-- Witness for C9: with one customer and a single in-range income entry of
100 whose customerId is null, the byCustomer sum is strictly below
totalIncome. -/
theorem pnl_unmatched_income_lt_witness :
    ((pnlReport demoUnmatchedState ⟨2024, 1, 1⟩ ⟨2024, 12, 31⟩).income.byCustomer.map
      (·.amount)).sum <
      (pnlReport demoUnmatchedState ⟨2024, 1, 1⟩ ⟨2024, 12, 31⟩).income.totalIncome :=
  (pnl_unmatched_income_lt demoUnmatchedState ⟨2024, 1, 1⟩ ⟨2024, 12, 31⟩
    (by simp [demoUnmatchedState])
    (by intro i hi; simp [demoUnmatchedState, getIncomeByPeriod] at hi; simp [hi])
    (by intro i hi; simp [demoUnmatchedState, getIncomeByPeriod] at hi; simp [hi])
    ⟨1, none, none, 100, ⟨2024, 5⟩, "route", "paid"⟩
    (by simp [demoUnmatchedState, getIncomeByPeriod, monthLeB, monthKey])
    (by intro c hc; simp [demoUnmatchedState] at hc; simp [hc])
    (by norm_num)).1
